import Mathlib

/-!
Shallow embedding of `src/libtatlin/gcodeparser2.py` (tatlin's G-code parser,
classes `GcodeLexer`, `Movement`, `GcodeParser`).

Conventions of the embedding:
* Python strings are `List Char`; a Lean string literal `s` is embedded as
  `s.data`.
* Python floats are modelled as exact rationals (`ℚ`); the decimal/exponent
  literals accepted by `float()` denote exact rational values here.  The IEEE
  special spellings (`inf`, `nan`) have no rational value and are outside the
  model.
* A Python value that may be `None` (an argument given without a number) is an
  `Option ℚ` (`PyVal`).
* Fallible Python code (exceptions) is embedded in `Except PyErr`.  `KeyError`,
  `NameError`, `IndexError`, `TypeError` and the two exception classes defined
  by the module are the error cases that can actually arise.
-/

namespace Gcode

/-- A Python value that is either a float (modelled as `ℚ`) or `None`. -/
abbrev PyVal := Option ℚ

/-- Exceptions that the embedded code can raise.
`argumentError` embeds `GcodeArgumentError`, `parserError` embeds
`GcodeParserError`; `keyError c` is a `KeyError` on dictionary key `c`;
`nameError s` is a `NameError` on the unbound name `s`. -/
inductive PyErr where
  | keyError : Char → PyErr
  | nameError : List Char → PyErr
  | indexError : PyErr
  | typeError : PyErr
  | argumentError : List Char → PyErr
  | parserError : List Char → PyErr
  deriving DecidableEq

/-- Python `needle in hay` on strings: substring containment. -/
def pyIn (needle : List Char) : List Char → Bool
  | [] => needle.isEmpty
  | c :: rest => needle.isPrefixOf (c :: rest) || pyIn needle rest

/-- Embedding of `content.replace('\r', '\n')` — a single-character pattern and replacement,
so Python's left-to-right scan is a plain character map. -/
def replaceCRtoLF (s : List Char) : List Char :=
  s.map (fun c => if c = '\r' then '\n' else c)

/-- Embedding of `content.replace('\n\n', '\n')` — Python scans left to right and skips
past each replacement, so `'\n\n\n'` becomes `'\n\n'`. -/
def collapseLFLF : List Char → List Char
  | [] => []
  | [c] => [c]
  | c1 :: c2 :: rest =>
    if c1 = '\n' ∧ c2 = '\n' then '\n' :: collapseLFLF rest
    else c1 :: collapseLFLF (c2 :: rest)

/-- Python `s.split(sep)` for a one-character separator: keeps empty pieces,
and `''.split(sep) == ['']`. -/
def pySplitChar (sep : Char) : List Char → List (List Char)
  | [] => [[]]
  | c :: rest =>
    if c = sep then [] :: pySplitChar sep rest
    else
      match pySplitChar sep rest with
      | [] => [[c]]
      | l :: ls => (c :: l) :: ls

/-- Embedding of `GcodeLexer.split_lines`:
`content.replace('\r', '\n').replace('\n\n', '\n').split('\n')`. -/
def split_lines (content : List Char) : List (List Char) :=
  pySplitChar '\n' (collapseLFLF (replaceCRtoLF content))

/-- First index of character `c` in `s`; Python `s.find(c)` (with `-1`
rendered as `none`). -/
def pyFind (s : List Char) (c : Char) : Option Nat :=
  s.findIdx? (fun x => x == c)

/-- Embedding of `GcodeLexer.split_comment`: split a line at the first `;`, then split the
command part at the first `(`; everything from the first comment starter
onward is comment. -/
def split_comment (line : List Char) : List Char × List Char :=
  let p1 : List Char × List Char :=
    match pyFind line ';' with
    | some i => (line.take i, line.drop i)
    | none => (line, [])
  match pyFind p1.1 '(' with
  | some i => (p1.1.take i, p1.1.drop i ++ p1.2)
  | none => p1

/-- Numeric value of a digit string, most significant first. -/
def digitsVal (l : List Char) : Nat :=
  l.foldl (fun n c => 10 * n + (c.toNat - ('0').toNat)) 0

/-- Mantissa of a Python float literal: `digits`, `digits.` , `digits.digits`
or `.digits`.  Returns the digits' value together with the number of
fractional digits. -/
def mantissaVal (l : List Char) : Option (Nat × Nat) :=
  let ip := l.takeWhile (fun c => c.isDigit)
  let rest := l.dropWhile (fun c => c.isDigit)
  match rest with
  | [] => if ip.isEmpty then none else some (digitsVal ip, 0)
  | '.' :: frac =>
    if frac.all (fun c => c.isDigit) && (!ip.isEmpty || !frac.isEmpty) then
      some (digitsVal (ip ++ frac), frac.length)
    else none
  | _ => none

/-- Scale a mantissa value by the fraction length and decimal exponent:
the exact rational `m * 10^e / 10^k`. -/
def scaleVal (m k : Nat) (e : Int) : ℚ :=
  if k = 0 ∧ e = 0 then (m : ℚ) else (m : ℚ) * (10 : ℚ) ^ (e - (k : Int))

/-- Python `float(s)` on a whitespace-free string, as an exact rational:
optional sign, mantissa, optional exponent part.  `none` means `float`
raises `ValueError`.  (The IEEE spellings `inf`/`infinity`/`nan` have no
rational value and are left outside the model.) -/
def toPyFloat (s : List Char) : Option ℚ :=
  let signBody : Bool × List Char :=
    match s with
    | '+' :: r => (false, r)
    | '-' :: r => (true, r)
    | r => (false, r)
  let t := signBody.2
  let mant := t.takeWhile (fun c => c != 'e' && c != 'E')
  let expPart := t.dropWhile (fun c => c != 'e' && c != 'E')
  let val : Option ℚ :=
    match mantissaVal mant with
    | none => none
    | some mk =>
      match expPart with
      | [] => some (scaleVal mk.1 mk.2 0)
      | _ :: er =>
        let expSign : Bool × List Char :=
          match er with
          | '+' :: r2 => (false, r2)
          | '-' :: r2 => (true, r2)
          | r2 => (false, r2)
        if expSign.2.isEmpty || !expSign.2.all (fun c => c.isDigit) then none
        else
          let e : Int := if expSign.1 then -(digitsVal expSign.2 : Int) else (digitsVal expSign.2 : Int)
          some (scaleVal mk.1 mk.2 e)
  match val with
  | none => none
  | some v => some (if signBody.1 then -v else v)

/-- A string `float()` accepts (within the model). -/
def isPyFloat (s : List Char) : Bool :=
  (toPyFloat s).isSome

/-- The `str()` of the `ValueError` that `float(tail)` raises (Python 2:
`could not convert string to float: ` followed by the argument). -/
def floatErrMsg (tail : List Char) : List Char :=
  ("could not convert string to float: ").data ++ tail

/-- Python dict with single-character keys, as an association list where the
most recent assignment is first. -/
abbrev Dict := List (Char × PyVal)

/-- Assignment `d[k] = v`: most recent assignment shadows earlier ones. -/
def dictInsert (d : Dict) (k : Char) (v : PyVal) : Dict :=
  (k, v) :: d

/-- Dictionary lookup (`none` when the key is absent). -/
def dictGet (d : Dict) (k : Char) : Option PyVal :=
  match d.find? (fun p => p.1 == k) with
  | some p => some p.2
  | none => none

/-- Subscript `d[k]` as an expression: raises `KeyError` on a missing key. -/
def pyGetItem (d : Dict) (k : Char) : Except PyErr PyVal :=
  match dictGet d k with
  | some v => Except.ok v
  | none => Except.error (PyErr.keyError k)

/-- One tokenized command: `(command word, argument dict, comment)`. -/
abbrev Command := List Char × Dict × List Char

/-- Embedding of `GcodeLexer.scan_args`, with the accumulated dict threaded through the
loop: `if arg[1:]: d[arg[0]] = float(arg[1:]) else: d[arg[0]] = None`,
re-raising a float `ValueError` as `GcodeArgumentError(str(e))`. -/
def scan_args_go (d : Dict) : List (List Char) → Except PyErr Dict
  | [] => Except.ok d
  | arg :: rest =>
    match arg with
    | [] => Except.error PyErr.indexError
    | a :: tail =>
      if tail.isEmpty then scan_args_go (dictInsert d a none) rest
      else
        match toPyFloat tail with
        | some v => scan_args_go (dictInsert d a (some v)) rest
        | none => Except.error (PyErr.argumentError (floatErrMsg tail))

/-- Embedding of `GcodeLexer.scan_args` starting from the empty dict. -/
def scan_args (args : List (List Char)) : Except PyErr Dict :=
  scan_args_go [] args

/-- The whitespace characters of Python `str.split()`. -/
def isPySpace (c : Char) : Bool :=
  c = ' ' || c = '\t' || c = '\n' || c = '\r' || c = '\x0b' || c = '\x0c'

/-- Python `s.split()` with no argument: split on runs of whitespace,
dropping leading/trailing whitespace; tokens are never empty. -/
def pySplitWs : List Char → List (List Char)
  | [] => []
  | c :: rest =>
    if isPySpace c then pySplitWs rest
    else
      match rest, pySplitWs rest with
      | r1 :: _, w :: ws => if isPySpace r1 then [c] :: w :: ws else (c :: w) :: ws
      | _, _ => [[c]]

/-- Embedding of `GcodeLexer.scan_line`: split off the comment, split the command portion
into whitespace-separated parts, and scan the argument tokens. -/
def scan_line (line : List Char) : Except PyErr Command :=
  let cc := split_comment line
  match pySplitWs cc.1 with
  | p :: rest =>
    match scan_args rest with
    | Except.ok args => Except.ok (p, args, cc.2)
    | Except.error e => Except.error e
  | [] => Except.ok ([], [], cc.2)

/-- Embedding of `GcodeLexer.is_blank`: `tokens == ('', \x7b\x7d, '')`. -/
def is_blank (t : Command) : Bool :=
  t.1.isEmpty && t.2.1.isEmpty && t.2.2.isEmpty

/-- A destination tuple `(args['X'], args['Y'], args['Z'])`; components may be
`None` when an axis letter was given without a number. -/
abbrev Point := PyVal × PyVal × PyVal

/-- Class `Movement`: travel between two points plus machine state. -/
structure Movement where
  src : Point
  dst : Point
  delta_e : PyVal
  feedrate : PyVal
  flags : Nat
  deriving DecidableEq

def FLAG_PERIMETER : Nat := 1
def FLAG_PERIMETER_OUTER : Nat := 2
def FLAG_LOOP : Nat := 4
def FLAG_SURROUND_LOOP : Nat := 8
def FLAG_EXTRUDER_ON : Nat := 16

def marker_layer : List Char := ("(<layer>").data
def marker_perimeter_start : List Char := ("(<perimeter>").data
def marker_perimeter_end : List Char := ("(</perimeter>)").data
def marker_loop_start : List Char := ("(<loop>").data
def marker_loop_end : List Char := ("(</loop>)").data
def marker_surrounding_loop_start : List Char := ("(<surroundingLoop>)").data
def marker_surrounding_loop_end : List Char := ("(</surroundingLoop>)").data

/-- Embedding of `GcodeParser.set_flags`: the `if`/`elif` chain updating the flag bitset.
`flags &= ~mask` on a non-negative int is `Nat.ldiff flags mask`. -/
def set_flags (flags : Nat) (cmd : Command) : Nat :=
  let gcode := cmd.1
  let comment := cmd.2.2
  if pyIn marker_loop_start comment then flags ||| FLAG_LOOP
  else if pyIn marker_loop_end comment then Nat.ldiff flags FLAG_LOOP
  else if pyIn marker_perimeter_start comment then
    let f := flags ||| FLAG_PERIMETER
    if pyIn (("outer").data) comment then f ||| FLAG_PERIMETER_OUTER else f
  else if pyIn marker_perimeter_end comment then
    Nat.ldiff flags (FLAG_PERIMETER ||| FLAG_PERIMETER_OUTER)
  else if pyIn marker_surrounding_loop_start comment then flags ||| FLAG_SURROUND_LOOP
  else if pyIn marker_surrounding_loop_end comment then Nat.ldiff flags FLAG_SURROUND_LOOP
  else if gcode = ("M101").data then flags ||| FLAG_EXTRUDER_ON
  else if gcode = ("M103").data then Nat.ldiff flags FLAG_EXTRUDER_ON
  else flags

/-- Embedding of `GcodeParser.command_coords`: only for the word `G1` build
`(args['X'], args['Y'], args['Z'])` — each lookup can raise `KeyError`.
Any other word yields no destination (`None`). -/
def command_coords (cmd : Command) : Except PyErr (Option Point) :=
  let gcode := cmd.1
  let args := cmd.2.1
  if gcode = ("G1").data then
    match pyGetItem args 'X' with
    | Except.error e => Except.error e
    | Except.ok x =>
      match pyGetItem args 'Y' with
      | Except.error e => Except.error e
      | Except.ok y =>
        match pyGetItem args 'Z' with
        | Except.error e => Except.error e
        | Except.ok z => Except.ok (some (x, y, z))
  else Except.ok none

/-- Python subtraction on possibly-`None` floats: `None` in either operand
raises `TypeError`. -/
def pySub (a b : PyVal) : Except PyErr ℚ :=
  match a, b with
  | some x, some y => Except.ok (x - y)
  | _, _ => Except.error PyErr.typeError

/-- Embedding of `GcodeParser.is_new_layer(dst, gcode, comment)` with the parser's
`self.src` passed explicitly: true when the comment holds the layer marker,
else when the word is one of `G1`/`G2`/`G3` and `dst[2] - src[2] > 0.1`
(short-circuit `and`, so the subtraction only happens for those words). -/
def is_new_layer (src : Point) (dst : Point) (gcode : List Char) (comment : List Char) :
    Except PyErr Bool :=
  if pyIn marker_layer comment then Except.ok true
  else if (gcode == ("G1").data) || (gcode == ("G2").data) || (gcode == ("G3").data) then
    match pySub dst.2.2 src.2.2 with
    | Except.error e => Except.error e
    | Except.ok d => Except.ok (decide (d > 1/10))
  else Except.ok false

/-- The parser state carried across commands: `self.src` (last destination,
initially `None`), `self.e_len` (initially the int `0`), `self.flags`. -/
structure PState where
  src : Option Point
  e_len : PyVal
  flags : Nat
  deriving DecidableEq

/-- One iteration of the `for command in self.lexer.scan()` body of
`GcodeParser.parse`.  In order: `dst = self.command_coords(command)`,
`e_len = args['E']`, `feedrate = args['F']`, `self.set_flags(command)`;
then `if self.src and dst and self.src != dst:` — a 3-tuple is always truthy,
so this is `src ≠ None ∧ dst ≠ None ∧ src ≠ dst` — and in that branch the
call `Movement(self.src, dst, delta_e, feedrate, self.flags)` evaluates the
local name `delta_e`, which is never assigned anywhere in the method, so it
raises `NameError` before the `Movement` is built; finally `if dst:
self.src = dst` and `self.e_len = e_len`. -/
def parseCmd (st : PState) (movements : List Movement) (layers : List (List Movement))
    (cmd : Command) : Except PyErr (PState × List Movement × List (List Movement)) :=
  let args := cmd.2.1
  match command_coords cmd with
  | Except.error e => Except.error e
  | Except.ok dst =>
    match pyGetItem args 'E' with
    | Except.error e => Except.error e
    | Except.ok e_len =>
      match pyGetItem args 'F' with
      | Except.error e => Except.error e
      | Except.ok _feedrate =>
        let flags := set_flags st.flags cmd
        if st.src.isSome ∧ dst.isSome ∧ st.src ≠ dst then
          Except.error (PyErr.nameError (("delta_e").data))
        else
          Except.ok ({ src := if dst.isSome then dst else st.src,
                       e_len := e_len, flags := flags },
                     movements, layers)

/-- The message of the `GcodeParserError` raised by `GcodeLexer.scan`:
`'Error parsing arguments: %s on line %d\n\t%s' % (str(e), line_no,
current_line)`. -/
def errFormat (msg : List Char) (lineNo : Nat) (line : List Char) : List Char :=
  ("Error parsing arguments: ").data ++ msg ++ (" on line ").data ++
    (Nat.repr lineNo).data ++ ("\n\t").data ++ line

/-- The fused lexer/parser loop: `GcodeParser.parse` pulls commands one at a
time from the lazy generator `GcodeLexer.scan`, so per line the lexer work
(tokenize, wrap a `GcodeArgumentError` into a `GcodeParserError` carrying
`line_no = idx + 1` and the raw line, skip blank token triples) happens
before that line's parse-loop body, and later lines are untouched once an
exception is raised.  At end of stream: leftover movements become a final
layer, and `if len(layers) < 1: raise GcodeParseError(...)` — the name
`GcodeParseError` is not defined anywhere in the module (the class is
`GcodeParserError`), so evaluating it raises `NameError`. -/
def parseLines (idx : Nat) (st : PState) (movements : List Movement)
    (layers : List (List Movement)) : List (List Char) → Except PyErr (List (List Movement))
  | [] =>
    let layers' := if movements.length > 0 then layers ++ [movements] else layers
    if layers'.length < 1 then Except.error (PyErr.nameError (("GcodeParseError").data))
    else Except.ok layers'
  | line :: rest =>
    match scan_line line with
    | Except.error (PyErr.argumentError msg) =>
      Except.error (PyErr.parserError (errFormat msg (idx + 1) line))
    | Except.error e => Except.error e
    | Except.ok tokens =>
      if is_blank tokens then parseLines (idx + 1) st movements layers rest
      else
        match parseCmd st movements layers tokens with
        | Except.error e => Except.error e
        | Except.ok (st', m', l') => parseLines (idx + 1) st' m' l' rest

/-- Embedding of `GcodeParser.load` followed by `GcodeParser.parse` on a raw input text. -/
def parse (input : List Char) : Except PyErr (List (List Movement)) :=
  parseLines 0 { src := none, e_len := some 0, flags := 0 } [] [] (split_lines input)

/-- An argument token `scan_args` accepts: non-empty, and its characters past
the leading letter are either absent or a valid float literal. -/
def validTok : List Char → Bool
  | [] => false
  | _ :: tail => tail.isEmpty || isPyFloat tail

/-- A piece of text containing no line-terminator character. -/
def noEol (l : List Char) : Prop :=
  ∀ c ∈ l, c ≠ '\r' ∧ c ≠ '\n'

end Gcode

namespace Gcode

/-- Helper fact `(split_comment line).1 ++ (split_comment line).2 = line`:
`take`/`drop` splits recombine. -/
theorem split_comment_recombine (line : List Char) :
    (split_comment line).1 ++ (split_comment line).2 = line := by
  unfold split_comment
  cases h1 : pyFind line ';' with
  | none =>
    cases h2 : pyFind line '(' with
    | none => simp [h2]
    | some i => simp [h2, List.take_append_drop]
  | some i =>
    cases h2 : pyFind (line.take i) '(' with
    | none => simp [h2, List.take_append_drop]
    | some j =>
      simp only [h2]
      rw [← List.append_assoc, List.take_append_drop, List.take_append_drop]

/-- C10: For every input line, the tokenizer's comment split is lossless:
concatenating the returned command portion and the returned comment string
reproduces the original line exactly. -/
theorem C10_split_comment_lossless (line : List Char) :
    (split_comment line).1 ++ (split_comment line).2 = line :=
  split_comment_recombine line

/-- C3: the claim says a zero-layer parse fails with a Parse Error stating the
input has no valid motion data.  In the code, a comment-only line reaches the
loop body, where the unconditional `args['E']` raises `KeyError` first; and on
fully blank input the zero-layer branch evaluates the undefined name
`GcodeParseError` (the defined class is `GcodeParserError`), raising
`NameError`.  Neither is the documented Parse Error. -/
theorem C3_zero_layers_raises_wrong_error :
    parse (("( some comment )").data) = Except.error (PyErr.keyError 'E') ∧
    parse ([]) = Except.error (PyErr.nameError (("GcodeParseError").data)) := by
  exact ⟨rfl, rfl⟩

/-- C2: the claim computes extrusion-delta `7.5 - 5.0 = 2.5` for the second
command.  In the code the `Movement` construction evaluates the local name
`delta_e`, which is never assigned, so the first command pair that would
yield a Movement raises `NameError` instead — no delta is ever computed. -/
theorem C2_delta_e_is_unbound :
    parse (("G1 X0 Y0 Z0 E5 F1" ++ "\n" ++ "G1 X1 Y0 Z0 E7.5 F1").data) =
      Except.error (PyErr.nameError (("delta_e").data)) := by
  exact rfl

/-- C1 counterexample: the claim says a linear-move command lacking one of
X, Y, Z yields no destination and the parse does not fail on it.  On
`G1 X1 Y2 E0 F0` (no Z) the parse fails with `KeyError('Z')` raised inside
`command_coords`. -/
theorem C1_counterexample :
    parse (("G1 X1 Y2 E0 F0").data) = Except.error (PyErr.keyError 'Z') := by
  exact rfl

/-- C1 (amended): a destination is computed only for the word `G1`, by
unconditional lookups of X, Y, Z (in that order): all three present gives the
destination triple, a missing axis raises `KeyError` for the first missing
one — the parse fails on such a command instead of skipping it; any other
word yields no destination.  Extrusion and feedrate are likewise looked up
unconditionally: `G1 X0 Y0 Z0` (no E) makes the parse fail with
`KeyError('E')`, so nothing is carried forward. -/
theorem C1_destination_only_full_G1 :
    (∀ (g : List Char) (args : Dict) (cm : List Char),
      (g ≠ ("G1").data → command_coords (g, args, cm) = Except.ok none) ∧
      (g = ("G1").data → ∀ x y z, dictGet args 'X' = some x → dictGet args 'Y' = some y →
        dictGet args 'Z' = some z →
        command_coords (g, args, cm) = Except.ok (some (x, y, z))) ∧
      (g = ("G1").data → dictGet args 'X' = none →
        command_coords (g, args, cm) = Except.error (PyErr.keyError 'X')) ∧
      (g = ("G1").data → dictGet args 'Y' = none → (∃ x, dictGet args 'X' = some x) →
        command_coords (g, args, cm) = Except.error (PyErr.keyError 'Y')) ∧
      (g = ("G1").data → dictGet args 'Z' = none → (∃ x, dictGet args 'X' = some x) →
        (∃ y, dictGet args 'Y' = some y) →
        command_coords (g, args, cm) = Except.error (PyErr.keyError 'Z'))) ∧
    parse (("G1 X0 Y0 Z0").data) = Except.error (PyErr.keyError 'E') := by
  constructor
  · intro g args cm
    refine ⟨?_, ?_, ?_, ?_, ?_⟩
    · intro hg
      simp [command_coords, hg]
    · intro hg x y z hx hy hz
      simp [command_coords, hg, pyGetItem, hx, hy, hz]
    · intro hg hx
      simp [command_coords, hg, pyGetItem, hx]
    · intro hg hy hx
      obtain ⟨x, hx⟩ := hx
      simp [command_coords, hg, pyGetItem, hx, hy]
    · intro hg hz hx hy
      obtain ⟨x, hx⟩ := hx
      obtain ⟨y, hy⟩ := hy
      simp [command_coords, hg, pyGetItem, hx, hy, hz]
  · exact rfl

/-- Witness for the C1 theorem: a concrete `G1` argument dict with X and Y
but no Z makes `command_coords` raise `KeyError('Z')`. -/
theorem C1_witness :
    dictGet [('Y', some 2), ('X', some 1)] 'Z' = none ∧
    command_coords ((("G1").data), [('Y', some 2), ('X', some 1)], []) =
      Except.error (PyErr.keyError 'Z') :=
  ⟨rfl, ((C1_destination_only_full_G1.1 (("G1").data) [('Y', some 2), ('X', some 1)] []).2.2.2.2)
    rfl rfl ⟨some 1, rfl⟩ ⟨some 2, rfl⟩⟩

/-- C4 counterexample: on the spec's own scenario (layer marker on a line of
its own between motion commands) the claim expects two layers; the code
instead fails at the very first command, whose unconditional `args['E']`
lookup raises `KeyError` — no boundary ever occurs. -/
theorem C4_counterexample :
    parse (("G1 X0 Y0 Z0\nG1 X10 Y0 Z0.05 E1.0 F1200\n(<layer>\nG1 X10 Y10 Z0.05 E2.0").data) =
      Except.error (PyErr.keyError 'E') := by
  exact rfl

/-- C4 (amended): whenever the boundary test `is_new_layer` runs, a comment
containing the layer-start marker yields a boundary regardless of the Z delta
(including zero or negative).  In `parse` this test runs only for a command
that just emitted a Movement, so a marker on a line of its own closes no
layer; and the cited scenario does not even parse (see the counterexample). -/
theorem C4_marker_always_boundary (src dst : Point) (g cm : List Char)
    (h : pyIn marker_layer cm = true) :
    is_new_layer src dst g cm = Except.ok true := by
  simp [is_new_layer, h]

/-- Witness for the C4 theorem: the marker forces a boundary even for a
negative Z delta (Z goes from 5 down to 1). -/
theorem C4_witness :
    pyIn marker_layer marker_layer = true ∧
    is_new_layer (some 0, some 0, some 5) (some 0, some 0, some 1) (("G1").data)
      marker_layer = Except.ok true :=
  ⟨rfl, C4_marker_always_boundary _ _ _ _ rfl⟩

/-- Without the layer marker, `is_new_layer` on numeric Z coordinates returns
exactly "recognized motion word and Z rises by more than 0.1". -/
theorem is_new_layer_no_marker (x1 y1 x2 y2 : PyVal) (zs zd : ℚ) (g cm : List Char)
    (h : pyIn marker_layer cm = false) :
    is_new_layer (x1, y1, some zs) (x2, y2, some zd) g cm =
      Except.ok (((g == ("G1").data) || (g == ("G2").data) || (g == ("G3").data)) &&
        decide (zd - zs > 1/10)) := by
  simp only [is_new_layer, h]
  cases hb : ((g == ("G1").data) || (g == ("G2").data) || (g == ("G3").data)) with
  | false => simp [hb]
  | true => simp [hb, pySub]

/-- C5: for a destination computed from a recognized motion word (and no layer
marker in the comment), a Z-jump boundary occurs exactly when the
destination's Z exceeds the previous Z by strictly more than 0.1; in
particular Z 0 → 0.05 gives no boundary while Z 0 → 0.2 does. -/
theorem C5_z_jump_threshold :
    (∀ (x1 y1 x2 y2 : PyVal) (zs zd : ℚ) (g cm : List Char),
      pyIn marker_layer cm = false →
      is_new_layer (x1, y1, some zs) (x2, y2, some zd) g cm =
        Except.ok (((g == ("G1").data) || (g == ("G2").data) || (g == ("G3").data)) &&
          decide (zd - zs > 1/10))) ∧
    is_new_layer (some 0, some 0, some 0) (some 0, some 0, some (1/20)) (("G1").data) [] =
      Except.ok false ∧
    is_new_layer (some 0, some 0, some 0) (some 0, some 0, some (1/5)) (("G1").data) [] =
      Except.ok true := by
  refine ⟨fun x1 y1 x2 y2 zs zd g cm h => is_new_layer_no_marker x1 y1 x2 y2 zs zd g cm h,
    ?_, ?_⟩
  · rw [is_new_layer_no_marker (some 0) (some 0) (some 0) (some 0) 0 (1/20) (("G1").data) []
      rfl]
    simp only [Except.ok.injEq, Bool.and_eq_false_iff, decide_eq_false_iff_not]
    right
    norm_num
  · rw [is_new_layer_no_marker (some 0) (some 0) (some 0) (some 0) 0 (1/5) (("G1").data) []
      rfl]
    simp only [Except.ok.injEq, Bool.and_eq_true, decide_eq_true_eq]
    norm_num

/-- Witness for the C5 theorem: instantiating the universal part at a `G2`
move from Z = 0 to Z = 1 with an empty (marker-free) comment. -/
theorem C5_witness :
    pyIn marker_layer ([]) = false ∧
    is_new_layer (some 0, some 0, some 0) (some 0, some 0, some 1) (("G2").data) [] =
      Except.ok ((((("G2").data) == ("G1").data) || ((("G2").data) == ("G2").data) ||
        ((("G2").data) == ("G3").data)) && decide ((1 : ℚ) - 0 > 1/10)) :=
  ⟨rfl, C5_z_jump_threshold.1 (some 0) (some 0) (some 0) (some 0) 0 1 (("G2").data) [] rfl⟩

/-- C7: the `PERIMETER_OUTER` bit (bit 1) can only be newly set by a comment
that contains the perimeter-start marker together with the substring `outer`
(the rules are an `elif` chain, first match wins: with a loop-start marker
present the whole update is just setting `LOOP`, whatever else the comment
holds). -/
theorem C7_outer_needs_perimeter_marker :
    (∀ (flags : Nat) (cmd : Command),
      Nat.testBit (set_flags flags cmd) 1 = true →
      Nat.testBit flags 1 = true ∨
        (pyIn marker_perimeter_start cmd.2.2 = true ∧ pyIn (("outer").data) cmd.2.2 = true)) ∧
    (∀ (flags : Nat) (cmd : Command), pyIn marker_loop_start cmd.2.2 = true →
      set_flags flags cmd = flags ||| FLAG_LOOP) := by
  constructor
  · intro flags cmd h
    simp only [set_flags] at h
    split_ifs at h with h1 h2 h3 h4 h5 h6 h7 h8 h9
    · rw [Nat.testBit_lor, (by decide : Nat.testBit FLAG_LOOP 1 = false), Bool.or_false] at h
      exact Or.inl h
    · rw [Nat.testBit_ldiff, (by decide : Nat.testBit FLAG_LOOP 1 = false), Bool.not_false,
        Bool.and_true] at h
      exact Or.inl h
    · exact Or.inr ⟨h3, h4⟩
    · rw [Nat.testBit_lor, (by decide : Nat.testBit FLAG_PERIMETER 1 = false),
        Bool.or_false] at h
      exact Or.inl h
    · rw [Nat.testBit_ldiff,
        (by decide : Nat.testBit (FLAG_PERIMETER ||| FLAG_PERIMETER_OUTER) 1 = true),
        Bool.not_true, Bool.and_false] at h
      exact absurd h (by simp)
    · rw [Nat.testBit_lor, (by decide : Nat.testBit FLAG_SURROUND_LOOP 1 = false),
        Bool.or_false] at h
      exact Or.inl h
    · rw [Nat.testBit_ldiff, (by decide : Nat.testBit FLAG_SURROUND_LOOP 1 = false),
        Bool.not_false, Bool.and_true] at h
      exact Or.inl h
    · rw [Nat.testBit_lor, (by decide : Nat.testBit FLAG_EXTRUDER_ON 1 = false),
        Bool.or_false] at h
      exact Or.inl h
    · rw [Nat.testBit_ldiff, (by decide : Nat.testBit FLAG_EXTRUDER_ON 1 = false),
        Bool.not_false, Bool.and_true] at h
      exact Or.inl h
    · exact Or.inl h
  · intro flags cmd h
    simp [set_flags, h]

/-- Witness for the C7 theorem: starting from all-clear flags, a comment with
both the perimeter-start marker and `outer` does set bit 1, and the theorem's
disjunction holds there. -/
theorem C7_witness :
    Nat.testBit (set_flags 0 ((("G1").data), [], ("(<perimeter> outer").data)) 1 = true ∧
    (Nat.testBit 0 1 = true ∨
      (pyIn marker_perimeter_start (("(<perimeter> outer").data) = true ∧
        pyIn (("outer").data) (("(<perimeter> outer").data) = true)) :=
  ⟨by decide, C7_outer_needs_perimeter_marker.1 0
    ((("G1").data), [], ("(<perimeter> outer").data) (by decide)⟩

/-- Scanning a run of valid argument tokens just extends the dict and moves
on to the remaining tokens. -/
theorem scan_args_go_ok_prefix (pre : List (List Char)) :
    ∀ (rest : List (List Char)) (d : Dict), (∀ t ∈ pre, validTok t = true) →
      ∃ d', scan_args_go d (pre ++ rest) = scan_args_go d' rest := by
  induction pre with
  | nil => exact fun rest d _ => ⟨d, rfl⟩
  | cons a pre ih =>
    intro rest d h
    have ha := h a (List.mem_cons_self a pre)
    have hpre : ∀ t ∈ pre, validTok t = true := fun t ht => h t (List.mem_cons_of_mem a ht)
    cases a with
    | nil => simp [validTok] at ha
    | cons c tail =>
      rw [List.cons_append]
      by_cases he : tail.isEmpty
      · rw [scan_args_go, if_pos he]
        exact ih rest (dictInsert d c none) hpre
      · simp only [validTok, he, Bool.false_or] at ha
        obtain ⟨v, hv⟩ := Option.isSome_iff_exists.mp ha
        rw [scan_args_go, if_neg he, hv]
        exact ih rest (dictInsert d c (some v)) hpre

/-- A token list of valid tokens scans to some dict. -/
theorem scan_args_go_all_ok (args : List (List Char)) (d : Dict)
    (h : ∀ t ∈ args, validTok t = true) : ∃ d', scan_args_go d args = Except.ok d' := by
  obtain ⟨d', hd⟩ := scan_args_go_ok_prefix args [] d h
  rw [List.append_nil] at hd
  exact ⟨d', hd⟩

/-- C6 counterexample: the claim says the Argument Error references the exact
token.  For the token `E1.2.3` the raised `GcodeArgumentError` carries the
float `ValueError` text, which mentions only the numeric remainder `1.2.3`;
the full token `E1.2.3` does not occur in it. -/
theorem C6_counterexample :
    scan_line (("G1 E1.2.3").data) =
      Except.error (PyErr.argumentError (("could not convert string to float: 1.2.3").data)) ∧
    pyIn (("E1.2.3").data) (("could not convert string to float: 1.2.3").data) = false := by
  exact ⟨rfl, rfl⟩

/-- C6 (amended): a line whose argument tokens are valid up to a first token
with a non-empty, non-float remainder makes `scan_args` raise an Argument
Error whose text references that remainder (the characters after the leading
letter), not the full token; the command stream wraps any such Argument Error
into a Parse Error carrying the 1-based line number and the original line
text; and a line all of whose argument tokens are valid tokenizes
successfully. -/
theorem C6_argument_error_reporting :
    (∀ (pre post : List (List Char)) (c : Char) (tail : List Char),
      (∀ t ∈ pre, validTok t = true) → tail ≠ [] → isPyFloat tail = false →
      scan_args (pre ++ (c :: tail) :: post) =
        Except.error (PyErr.argumentError (floatErrMsg tail))) ∧
    (∀ (idx : Nat) (st : PState) (m : List Movement) (l : List (List Movement))
       (line : List Char) (rest : List (List Char)) (msg : List Char),
      scan_line line = Except.error (PyErr.argumentError msg) →
      parseLines idx st m l (line :: rest) =
        Except.error (PyErr.parserError (errFormat msg (idx + 1) line))) ∧
    (∀ line : List Char,
      (∀ t ∈ (pySplitWs (split_comment line).1).drop 1, validTok t = true) →
      ∃ tok, scan_line line = Except.ok tok) := by
  refine ⟨?_, ?_, ?_⟩
  · intro pre post c tail hpre hne hbad
    obtain ⟨d', hd⟩ := scan_args_go_ok_prefix pre ((c :: tail) :: post) [] hpre
    have he : tail.isEmpty = false := by
      cases tail with
      | nil => exact absurd rfl hne
      | cons t ts => rfl
    have hnone : toPyFloat tail = none := by
      cases hf : toPyFloat tail with
      | none => rfl
      | some v => rw [isPyFloat, hf] at hbad; simp at hbad
    simp only [scan_args]
    rw [hd, scan_args_go, if_neg (by simp [he]), hnone]
  · intro idx st m l line rest msg h
    simp [parseLines, h]
  · intro line h
    rw [scan_line]
    cases hp : pySplitWs (split_comment line).1 with
    | nil => exact ⟨_, rfl⟩
    | cons p restToks =>
      rw [hp] at h
      obtain ⟨d', hd⟩ := scan_args_go_all_ok restToks [] (by simpa using h)
      simp only [scan_args]
      rw [hd]
      exact ⟨_, rfl⟩

/-- Witness for the C6 theorem: the malformed line `G1 E1.2.3` at stream
position 0 surfaces as a Parse Error naming line 1 and the raw line text. -/
theorem C6_witness :
    scan_line (("G1 E1.2.3").data) =
      Except.error (PyErr.argumentError (("could not convert string to float: 1.2.3").data)) ∧
    parseLines 0 { src := none, e_len := some 0, flags := 0 } [] [] [("G1 E1.2.3").data] =
      Except.error (PyErr.parserError
        (errFormat (("could not convert string to float: 1.2.3").data) 1 (("G1 E1.2.3").data))) :=
  ⟨rfl, C6_argument_error_reporting.2.1 0 { src := none, e_len := some 0, flags := 0 } [] []
    (("G1 E1.2.3").data) [] (("could not convert string to float: 1.2.3").data) rfl⟩

/-- Replacing carriage returns leaves a CR-free, LF-free piece unchanged. -/
theorem replaceCRtoLF_noEol (a : List Char) (ha : noEol a) : replaceCRtoLF a = a := by
  induction a with
  | nil => rfl
  | cons c t ih =>
    have hc := ha c (List.mem_cons_self c t)
    have ht : noEol t := fun x hx => ha x (List.mem_cons_of_mem c hx)
    simp [replaceCRtoLF] at ih ⊢
    exact ⟨fun h => absurd h hc.1, ih ht⟩

/-- The LF-pair collapse leaves a list without any LF unchanged. -/
theorem collapseLFLF_noLF : ∀ (l : List Char), (∀ c ∈ l, c ≠ '\n') → collapseLFLF l = l
  | [], _ => rfl
  | [c], _ => rfl
  | c1 :: c2 :: rest, h => by
    have h1 := h c1 (List.mem_cons_self c1 (c2 :: rest))
    rw [collapseLFLF, if_neg (fun hc => h1 hc.1)]
    rw [collapseLFLF_noLF (c2 :: rest) (fun x hx => h x (List.mem_cons_of_mem c1 hx))]

/-- The LF-pair collapse passes over an LF-free prefix untouched. -/
theorem collapseLFLF_front : ∀ (a rest : List Char), (∀ c ∈ a, c ≠ '\n') →
    collapseLFLF (a ++ rest) = a ++ collapseLFLF rest
  | [], rest, _ => rfl
  | c :: a', rest, h => by
    have hc := h c (List.mem_cons_self c a')
    have ha' : ∀ x ∈ a', x ≠ '\n' := fun x hx => h x (List.mem_cons_of_mem c hx)
    rw [List.cons_append]
    cases hcat : a' ++ rest with
    | nil =>
      have : collapseLFLF rest = rest := by
        cases a' with
        | nil => simp at hcat; rw [hcat]; rfl
        | cons x xs => simp at hcat
      simp only [List.nil_eq, List.append_eq_nil] at hcat
      rw [hcat.1, hcat.2]
      rfl
    | cons c2 rr =>
      rw [collapseLFLF, if_neg (fun hx => hc hx.1), ← hcat,
        collapseLFLF_front a' rest ha', List.cons_append]

/-- C8 counterexample: the claim says empty input yields zero lines; the line
splitter on empty input returns one (empty) line, because `''.split('\n')`
is `['']`. -/
theorem C8_counterexample :
    split_lines ([]) = [[]] ∧ split_lines ([]) ≠ ([] : List (List Char)) := by
  exact ⟨rfl, by decide⟩

/-- Splitting on a character absent from the list yields that single piece. -/
theorem pySplitChar_noSep (sep : Char) :
    ∀ (l : List Char), (∀ c ∈ l, c ≠ sep) → pySplitChar sep l = [l] := by
  intro l
  induction l with
  | nil => intro _; rfl
  | cons c t ih =>
    intro h
    have hc := h c (List.mem_cons_self c t)
    rw [pySplitChar, if_neg hc, ih (fun x hx => h x (List.mem_cons_of_mem c hx))]

/-- Splitting around a single separator with separator-free pieces on either
side yields exactly those two pieces. -/
theorem pySplitChar_single (sep : Char) :
    ∀ (a b : List Char), (∀ c ∈ a, c ≠ sep) → (∀ c ∈ b, c ≠ sep) →
      pySplitChar sep (a ++ sep :: b) = [a, b] := by
  intro a
  induction a with
  | nil =>
    intro b _ hb
    rw [List.nil_append, pySplitChar, if_pos rfl, pySplitChar_noSep sep b hb]
  | cons c a' ih =>
    intro b ha hb
    have hc := ha c (List.mem_cons_self c a')
    rw [List.cons_append, pySplitChar, if_neg hc,
      ih b (fun x hx => ha x (List.mem_cons_of_mem c hx)) hb]

/-- C8 (amended): CRLF, bare CR and bare LF each separate two terminator-free
pieces into exactly those two lines (in particular a CRLF pair produces no
spurious blank line), the splitter is total, and empty input yields one empty
line (not zero lines). -/
theorem C8_line_separators (a b : List Char) (ha : noEol a) (hb : noEol b) :
    split_lines (a ++ '\r' :: '\n' :: b) = [a, b] ∧
    split_lines (a ++ '\r' :: b) = [a, b] ∧
    split_lines (a ++ '\n' :: b) = [a, b] ∧
    split_lines ([]) = [[]] := by
  have haLF : ∀ c ∈ a, c ≠ '\n' := fun c hc => (ha c hc).2
  have hbLF : ∀ c ∈ b, c ≠ '\n' := fun c hc => (hb c hc).2
  have hra : replaceCRtoLF a = a := replaceCRtoLF_noEol a ha
  have hrb : replaceCRtoLF b = b := replaceCRtoLF_noEol b hb
  have hcb : collapseLFLF b = b := collapseLFLF_noLF b hbLF
  refine ⟨?_, ?_, ?_, rfl⟩
  · show pySplitChar '\n' (collapseLFLF (replaceCRtoLF (a ++ '\r' :: '\n' :: b))) = [a, b]
    rw [replaceCRtoLF, List.map_append, ← replaceCRtoLF, hra]
    show pySplitChar '\n' (collapseLFLF (a ++ '\n' :: '\n' :: replaceCRtoLF b)) = [a, b]
    rw [hrb, collapseLFLF_front a _ haLF]
    rw [(by rw [collapseLFLF, if_pos ⟨rfl, rfl⟩, hcb] :
      collapseLFLF ('\n' :: '\n' :: b) = '\n' :: b)]
    exact pySplitChar_single '\n' a b haLF hbLF
  · show pySplitChar '\n' (collapseLFLF (replaceCRtoLF (a ++ '\r' :: b))) = [a, b]
    rw [replaceCRtoLF, List.map_append, ← replaceCRtoLF, hra]
    show pySplitChar '\n' (collapseLFLF (a ++ '\n' :: replaceCRtoLF b)) = [a, b]
    rw [hrb, collapseLFLF_front a _ haLF]
    have : collapseLFLF ('\n' :: b) = '\n' :: b := by
      cases b with
      | nil => rfl
      | cons x xs =>
        rw [collapseLFLF, if_neg (fun hx => (hb x (List.mem_cons_self x xs)).2 hx.2), hcb]
    rw [this]
    exact pySplitChar_single '\n' a b haLF hbLF
  · show pySplitChar '\n' (collapseLFLF (replaceCRtoLF (a ++ '\n' :: b))) = [a, b]
    rw [replaceCRtoLF, List.map_append, ← replaceCRtoLF, hra]
    show pySplitChar '\n' (collapseLFLF (a ++ '\n' :: replaceCRtoLF b)) = [a, b]
    rw [hrb, collapseLFLF_front a _ haLF]
    have : collapseLFLF ('\n' :: b) = '\n' :: b := by
      cases b with
      | nil => rfl
      | cons x xs =>
        rw [collapseLFLF, if_neg (fun hx => (hb x (List.mem_cons_self x xs)).2 hx.2), hcb]
    rw [this]
    exact pySplitChar_single '\n' a b haLF hbLF

/-- Witness for the C8 theorem: the three separators between the concrete
pieces `ab` and `cd`. -/
theorem C8_witness :
    noEol (("ab").data) ∧ noEol (("cd").data) ∧
    split_lines ((("ab").data) ++ '\r' :: '\n' :: (("cd").data)) = [("ab").data, ("cd").data] ∧
    split_lines ((("ab").data) ++ '\r' :: (("cd").data)) = [("ab").data, ("cd").data] ∧
    split_lines ((("ab").data) ++ '\n' :: (("cd").data)) = [("ab").data, ("cd").data] ∧
    split_lines ([]) = [[]] := by
  have ha : noEol (("ab").data) := by unfold noEol; decide
  have hb : noEol (("cd").data) := by unfold noEol; decide
  have h := C8_line_separators (("ab").data) (("cd").data) ha hb
  exact ⟨ha, hb, h.1, h.2.1, h.2.2.1, h.2.2.2⟩

/-- When one loop iteration of `parse` succeeds, it leaves the movement buffer
and the layer list untouched: the only place that could extend them first
evaluates the unbound name `delta_e` and errors. -/
theorem parseCmd_shape (st : PState) (m : List Movement) (l : List (List Movement))
    (cmd : Command) (st' : PState) (m' : List Movement) (l' : List (List Movement))
    (h : parseCmd st m l cmd = Except.ok (st', m', l')) : m' = m ∧ l' = l := by
  simp only [parseCmd] at h
  split at h
  · exact absurd h (by simp)
  split at h
  · exact absurd h (by simp)
  split at h
  · exact absurd h (by simp)
  split at h
  · exact absurd h (by simp)
  · simp only [Except.ok.injEq, Prod.mk.injEq] at h
    exact ⟨h.2.1.symm, h.2.2.symm⟩

/-- With empty movement buffer and layer list, the fused lexer/parser loop
always ends in an error: every command runs the unconditional `args['E']`
lookup, every movement-producing command hits the unbound `delta_e`, and the
zero-layer epilogue evaluates the undefined name `GcodeParseError`. -/
theorem parseLines_empty_acc_fails :
    ∀ (lines : List (List Char)) (idx : Nat) (st : PState),
      ∃ e, parseLines idx st [] [] lines = Except.error e := by
  intro lines
  induction lines with
  | nil => exact fun idx st => ⟨PyErr.nameError (("GcodeParseError").data), rfl⟩
  | cons line rest ih =>
    intro idx st
    simp only [parseLines]
    cases hscan : scan_line line with
    | error e =>
      cases e with
      | keyError c => exact ⟨_, rfl⟩
      | nameError s => exact ⟨_, rfl⟩
      | indexError => exact ⟨_, rfl⟩
      | typeError => exact ⟨_, rfl⟩
      | argumentError msg => exact ⟨_, rfl⟩
      | parserError msg => exact ⟨_, rfl⟩
    | ok tokens =>
      by_cases hb : is_blank tokens = true
      · simp only [hb, if_true]
        exact ih (idx + 1) st
      · simp only [eq_self_iff_true, hb, if_false]
        cases hp : parseCmd st [] [] tokens with
        | error e => exact ⟨e, rfl⟩
        | ok triple =>
          obtain ⟨st', m', l'⟩ := triple
          obtain ⟨hm, hl⟩ := parseCmd_shape st [] [] tokens st' m' l' hp
          subst hm
          subst hl
          exact ih (idx + 1) st'

/-- C9: the claim quantifies over inputs whose parse succeeds and asserts the
layers partition the emitted movement sequence.  No such input exists: for
every input `parse` raises an exception, so the success path (and with it the
layer-assembly invariant the claim describes) is unreachable in the code as
written. -/
theorem C9_parse_never_succeeds (input : List Char) :
    ∃ e, parse input = Except.error e :=
  parseLines_empty_acc_fails (split_lines input) 0
    { src := none, e_len := some 0, flags := 0 }

end Gcode
